import Mathlib

/-!
A shallow embedding of the pipeline Docker-image build subsystem:
`zenml/config/docker_configuration.py` and
`zenml/utils/pipeline_docker_image_builder.py`.

External collaborators (the Docker image builder, the filesystem, the
integration registry, the shell used to export the local environment, the
container registry) are modelled as parameters collected in `BuildEnv` and
`Stack`; the side effects performed through them are recorded as an ordered
trace of `BuildEvent`s, and raised Python exceptions become `BuildError`
values.  Python truthiness of the configuration fields is modelled
explicitly (`strTruthy`, `requirementsTruthy`).
-/

/-- Decidable equality for `Except`, used to evaluate results on concrete
inputs. -/
instance {ε α : Type} [DecidableEq ε] [DecidableEq α] :
    DecidableEq (Except ε α) := fun a b =>
  match a, b with
  | .ok a, .ok b => decidable_of_iff (a = b) (by simp)
  | .error a, .error b => decidable_of_iff (a = b) (by simp)
  | .ok _, .error _ => .isFalse (by simp)
  | .error _, .ok _ => .isFalse (by simp)

/-- `DOCKER_IMAGE_WORKDIR` constant from `pipeline_docker_image_builder.py`. -/
def DOCKER_IMAGE_WORKDIR : String := "/app"

/-- `DOCKER_IMAGE_ZENML_CONFIG_DIR` constant from
`pipeline_docker_image_builder.py`. -/
def DOCKER_IMAGE_ZENML_CONFIG_DIR : String := ".zenconfig"

/-- `DOCKER_IMAGE_ZENML_CONFIG_PATH` constant from
`pipeline_docker_image_builder.py`. -/
def DOCKER_IMAGE_ZENML_CONFIG_PATH : String :=
  DOCKER_IMAGE_WORKDIR ++ "/" ++ DOCKER_IMAGE_ZENML_CONFIG_DIR

/-- Modelled from the spec: the name of the environment variable pointing at
the in-image profile-config path.  The constant `ENV_ZENML_CONFIG_PATH` is
imported from `zenml.constants`, a module outside the excerpt; only its
identity as a fixed string matters here. -/
def ENV_ZENML_CONFIG_PATH : String := "ZENML_CONFIG_PATH"

/-- `DEFAULT_DOCKER_PARENT_IMAGE` from `pipeline_docker_image_builder.py`:
a module-level constant `"zenmldocker/zenml:{zenml.__version__}-py{major}.{minor}"`
computed once at import time.  It is modelled at a fixed version; no claim
depends on the concrete version numbers, only on the constant's identity. -/
def DEFAULT_DOCKER_PARENT_IMAGE : String := "zenmldocker/zenml:0.8.0-py3.8"

/-- `PythonEnvironmentExportMethod` enum from `docker_configuration.py`. -/
inductive PythonEnvironmentExportMethod where
  | pip_freeze
  | poetry_export
deriving DecidableEq, Repr

/-- The `command` property of `PythonEnvironmentExportMethod`. -/
def PythonEnvironmentExportMethod.command :
    PythonEnvironmentExportMethod → String
  | .pip_freeze => "pip freeze"
  | .poetry_export => "poetry export --format=requirements.txt"

/-- The `requirements: Union[None, str, List[str]]` field of
`DockerConfiguration`, as the tagged variant the spec's design notes call
for: either a path to a requirements file or an explicit package list
(`None` is `Option.none` one level up). -/
inductive RequirementsSource where
  | fromFile (path : String)
  | fromList (packages : List String)
deriving DecidableEq, Repr

/-- `DockerConfiguration` from `docker_configuration.py`, with the source's
field names and defaults.  Python `Dict`s keep insertion order, so
`build_options` and `environment` are ordered association lists. -/
structure DockerConfiguration where
  parent_image : Option String := none
  dockerfile : Option String := none
  build_context_root : Option String := none
  build_options : List (String × String) := []
  target_repository : String := "zenml"
  replicate_local_python_environment :
      Option PythonEnvironmentExportMethod := none
  requirements : Option RequirementsSource := none
  required_integrations : List String := []
  install_stack_requirements : Bool := true
  environment : List (String × String) := []
  dockerignore : Option String := none
  copy_files : Bool := true
  copy_profile : Bool := true
deriving DecidableEq, Repr

/-- Python truthiness of an `Optional[str]`: `None` and `""` are falsy. -/
def strTruthy : Option String → Bool
  | none => false
  | some s => !s.isEmpty

/-- Python truthiness of the `requirements` field: `None`, `""` and `[]`
are falsy; a non-empty string or non-empty list is truthy. -/
def requirementsTruthy : Option RequirementsSource → Bool
  | none => false
  | some (.fromFile p) => !p.isEmpty
  | some (.fromList l) => !l.isEmpty

/-- Python's short-circuiting `a or b` for an optional string `a` with a
string fallback `b` (`""` counts as falsy). -/
def py_str_or (a : Option String) (b : String) : String :=
  match a with
  | some s => if s.isEmpty then b else s
  | none => b

/-- The `requires_zenml_build` disjunction of `build_docker_image`
(`pipeline_docker_image_builder.py`, lines 278-289): Python `any` over the
truthiness of the eight listed values. -/
def requires_zenml_build (cfg : DockerConfiguration)
    (entrypoint : Option String) : Bool :=
  requirementsTruthy cfg.requirements
    || !cfg.required_integrations.isEmpty
    || cfg.replicate_local_python_environment.isSome
    || cfg.install_stack_requirements
    || !cfg.environment.isEmpty
    || cfg.copy_files
    || cfg.copy_profile
    || strTruthy entrypoint

/-- The `Stack` collaborator: `requirements()`, an optional container
registry exposing `uri`, and a `name`. -/
structure ContainerRegistry where
  uri : String
deriving DecidableEq, Repr

/-- The stack on which the pipeline runs (external collaborator). -/
structure Stack where
  name : String := "default"
  container_registry : Option ContainerRegistry := none
  stack_requirements : List String := []
deriving DecidableEq, Repr

/-- The remaining external collaborators of the build, gathered as one
record: the subprocess used to export the local environment (its outcome),
the filesystem read, the integration registry, the Docker daemon's image
locality check, the source-root path, the outcome of the final synthesized
image build and of the registry push. -/
structure BuildEnv where
  localEnvExport : Except String String := .ok ""
  readFile : String → String := fun _ => ""
  integrationRequirements : String → List String := fun _ => []
  isLocalImage : String → Bool := fun _ => false
  sourceRootPath : String := "/src"
  synthBuildOutcome : Option String := none
  pushOutcome : String → Except String String := fun _ => .ok "digest"

/-- Errors raised by the subsystem (Python exception values). -/
inductive BuildError where
  | insufficientConfiguration
  | localEnvironmentExportFailed
  | imageBuildFailed (msg : String)
  | noContainerRegistry (stackName : String)
  | pushFailed (msg : String)
deriving DecidableEq, Repr

/-- Lexicographic (code-point) comparison of character lists, the order
Python's `sorted` uses on strings. -/
def listCharLe : List Char → List Char → Bool
  | [], _ => true
  | _ :: _, [] => false
  | a :: as, b :: bs =>
    if a < b then true
    else if b < a then false
    else listCharLe as bs

/-- Lexicographic comparison of strings by their character data. -/
def strLe (a b : String) : Bool :=
  listCharLe a.data b.data

/-- Sorted, deduplicated form of a list of strings: Python's
`sorted(set(l))`, sorting lexicographically. -/
def sortedDedup (l : List String) : List String :=
  List.insertionSort (fun a b => strLe a b = true) l.dedup

/-- The combined integration/stack requirement multiset fed into the set
union of `_gather_requirements_files` (lines 174-185). -/
def integrationAndStackRequirements (env : BuildEnv)
    (cfg : DockerConfiguration) (stack : Stack) : List String :=
  (cfg.required_integrations.flatMap env.integrationRequirements)
    ++ (if cfg.install_stack_requirements then stack.stack_requirements else [])

/-- The user-requirements content computed by `_gather_requirements_files`
(lines 151-167): read the file when `requirements` is a string, join with
newlines when it is a list, `None` otherwise. -/
def userRequirementsContent (env : BuildEnv)
    (cfg : DockerConfiguration) : Option String :=
  match cfg.requirements with
  | some (.fromFile p) => some (env.readFile p)
  | some (.fromList l) => some (String.intercalate "\n" l)
  | none => none

/-- The `.zenml_user_requirements` entry of `_gather_requirements_files`
(lines 151-172), appended only when the computed content is truthy (so an
empty string produces no entry). -/
def user_requirement_files (env : BuildEnv) (cfg : DockerConfiguration) :
    List (String × String) :=
  match userRequirementsContent env cfg with
  | some c => if c.isEmpty then [] else [(".zenml_user_requirements", c)]
  | none => []

/-- The `.zenml_integration_requirements` entry of
`_gather_requirements_files` (lines 174-201): the sorted, deduplicated
union of the selected integration requirements and (when
`install_stack_requirements`) the stack requirements, joined with
newlines; appended only when the union is non-empty. -/
def integration_requirement_files (env : BuildEnv) (cfg : DockerConfiguration)
    (stack : Stack) : List (String × String) :=
  if (integrationAndStackRequirements env cfg stack).isEmpty then []
  else [(".zenml_integration_requirements",
    String.intercalate "\n"
      (sortedDedup (integrationAndStackRequirements env cfg stack)))]

/-- `_gather_requirements_files` (`pipeline_docker_image_builder.py`,
lines 109-203): gathers up to three named requirement files, in the fixed
order local-environment snapshot, user requirements, integration/stack
requirements.  The local snapshot is appended whenever
`replicate_local_python_environment` is set and the export subprocess
succeeds (its output is appended even when empty); the subprocess failing
raises `RuntimeError`. -/
def gather_requirements_files (env : BuildEnv) (cfg : DockerConfiguration)
    (stack : Stack) : Except BuildError (List (String × String)) :=
  match cfg.replicate_local_python_environment with
  | some _ =>
    match env.localEnvExport with
    | .error _ => .error .localEnvironmentExportFailed
    | .ok localRequirements =>
      .ok ([(".zenml_local_requirements", localRequirements)]
        ++ user_requirement_files env cfg
        ++ integration_requirement_files env cfg stack)
  | none =>
    .ok (user_requirement_files env cfg
      ++ integration_requirement_files env cfg stack)

/-- Python's `str.upper()` on the environment-variable keys, modelled as a
character-wise upper-casing of the string data. -/
def pyUpper (s : String) : String :=
  String.mk (s.data.map Char.toUpper)

/-- `_generate_zenml_pipeline_dockerfile`
(`pipeline_docker_image_builder.py`, lines 205-248): pure rendering of the
Dockerfile lines.  `if entrypoint:` is Python truthiness, so an empty
entrypoint string emits no line. -/
def generate_zenml_pipeline_dockerfile (parent_image : String)
    (cfg : DockerConfiguration) (requirements_files : List String)
    (entrypoint : Option String) : List String :=
  ["FROM " ++ parent_image, "WORKDIR " ++ DOCKER_IMAGE_WORKDIR]
    ++ (if cfg.copy_profile then
          ["ENV " ++ ENV_ZENML_CONFIG_PATH ++ "=" ++ DOCKER_IMAGE_ZENML_CONFIG_PATH]
        else [])
    ++ cfg.environment.map (fun kv => "ENV " ++ pyUpper kv.1 ++ "=" ++ kv.2)
    ++ requirements_files.flatMap (fun f =>
        ["COPY " ++ f ++ " .", "RUN pip install --no-cache-dir -r " ++ f])
    ++ (if cfg.copy_files then ["COPY . ."]
        else if cfg.copy_profile then
          ["COPY " ++ DOCKER_IMAGE_ZENML_CONFIG_DIR ++ " ."]
        else [])
    ++ ["RUN chmod -R a+rw ."]
    ++ (match entrypoint with
        | some e => if e.isEmpty then [] else ["ENTRYPOINT " ++ e]
        | none => [])

/-- The side effects of the build, in order of occurrence: the two kinds of
`docker_utils.build_image` calls (from a custom Dockerfile path, and from
synthesized Dockerfile lines), `docker_utils.tag_image`, the creation and
removal of the temporary profile-configuration copy performed by
`_include_active_profile`, and `container_registry.push_image`. -/
inductive BuildEvent where
  | buildCustomImage (imageName : String) (dockerfilePath : String)
      (buildContextRoot : Option String) (buildOptions : List (String × String))
  | buildZenmlImage (imageName : String) (dockerfileLines : List String)
      (buildContextRoot : Option String) (dockerignore : Option String)
      (extraFiles : List (String × String)) (pull : Bool)
  | tagImage (image : String) (target : String)
  | copyActiveConfiguration (path : String)
  | rmtree (path : String)
  | pushImage (imageName : String)
deriving DecidableEq, Repr

/-- Whether an event is a call to the image builder's `build` operation. -/
def BuildEvent.isBuildCall : BuildEvent → Bool
  | .buildCustomImage _ _ _ _ => true
  | .buildZenmlImage _ _ _ _ _ _ => true
  | _ => false

/-- Whether an event is the creation of the temporary profile-configuration
copy (`GlobalConfiguration().copy_active_configuration`). -/
def BuildEvent.isProfileCopy : BuildEvent → Bool
  | .copyActiveConfiguration _ => true
  | _ => false

/-- Whether an event is the removal of the temporary profile-configuration
copy (`fileio.rmtree` in the `finally` of `_include_active_profile`). -/
def BuildEvent.isProfileRemove : BuildEvent → Bool
  | .rmtree _ => true
  | _ => false

/-- The pull decision of `build_docker_image` (lines 349-359): never pull
the version-pinned default parent; otherwise pull unless the image is
locally resident. -/
def computePullParentImage (isLocalImage : String → Bool)
    (parent_image : String) : Bool :=
  if parent_image = DEFAULT_DOCKER_PARENT_IMAGE then false
  else !(isLocalImage parent_image)

/-- The synthesized-image stage of `build_docker_image` (lines 336-385):
gather the requirement files, render the Dockerfile, decide the pull flag
and the build context, and run the final build, wrapping it in
`_include_active_profile` (profile copy created before, removed in a
`finally` after) when `copy_profile` is set.  Returns the event trace and
the propagated error, if any. -/
def zenmlBuildStage (env : BuildEnv) (cfg : DockerConfiguration)
    (stack : Stack) (parent_image target_image_name : String)
    (entrypoint : Option String) : List BuildEvent × Option BuildError :=
  match gather_requirements_files env cfg stack with
  | .error e => ([], some e)
  | .ok requirement_files =>
    let requirements_file_names := requirement_files.map Prod.fst
    let dockerfile := generate_zenml_pipeline_dockerfile parent_image cfg
      requirements_file_names entrypoint
    let pull_parent_image := computePullParentImage env.isLocalImage parent_image
    let requires_build_context := cfg.copy_files || cfg.copy_profile
    let build_context_root : Option String :=
      if requires_build_context then some env.sourceRootPath else none
    let buildEvent := BuildEvent.buildZenmlImage target_image_name dockerfile
      build_context_root cfg.dockerignore requirement_files pull_parent_image
    let outcome : Option BuildError :=
      env.synthBuildOutcome.map BuildError.imageBuildFailed
    if cfg.copy_profile then
      let config_path :=
        env.sourceRootPath ++ "/" ++ DOCKER_IMAGE_ZENML_CONFIG_DIR
      ([.copyActiveConfiguration config_path, buildEvent, .rmtree config_path],
        outcome)
    else
      ([buildEvent], outcome)

/-- `build_docker_image` (`pipeline_docker_image_builder.py`,
lines 250-385).  `builder_parent_image` is the `docker_parent_image`
attribute of the `PipelineDockerImageBuilder` component.  Returns the
ordered trace of collaborator calls and the propagated error, if any. -/
def build_docker_image (env : BuildEnv) (builder_parent_image : Option String)
    (target_image_name pipeline_name : String) (cfg : DockerConfiguration)
    (stack : Stack) (entrypoint : Option String) :
    List BuildEvent × Option BuildError :=
  let requires := requires_zenml_build cfg entrypoint
  let parent_image :=
    py_str_or cfg.parent_image
      (py_str_or builder_parent_image DEFAULT_DOCKER_PARENT_IMAGE)
  if strTruthy cfg.dockerfile then
    let dockerfilePath := (cfg.dockerfile).getD ""
    if requires then
      let user_image_name := "zenml-intermediate-build:" ++ pipeline_name
      let firstBuild := BuildEvent.buildCustomImage user_image_name
        dockerfilePath cfg.build_context_root cfg.build_options
      let rest := zenmlBuildStage env cfg stack user_image_name
        target_image_name entrypoint
      (firstBuild :: rest.1, rest.2)
    else
      ([BuildEvent.buildCustomImage target_image_name dockerfilePath
          cfg.build_context_root cfg.build_options], none)
  else
    if requires then
      zenmlBuildStage env cfg stack parent_image target_image_name entrypoint
    else
      if parent_image = DEFAULT_DOCKER_PARENT_IMAGE then
        ([], some .insufficientConfiguration)
      else
        ([BuildEvent.tagImage parent_image target_image_name], none)

/-- `build_and_push_docker_image` (`pipeline_docker_image_builder.py`,
lines 387-442).  Returns the event trace, the writes performed on the
runtime configuration (the run record), and either the pushed image's
repository digest or the raised error. -/
def build_and_push_docker_image (env : BuildEnv)
    (builder_parent_image : Option String) (pipeline_name : String)
    (cfg : DockerConfiguration) (stack : Stack) (entrypoint : Option String) :
    List BuildEvent × List (String × String) × Except BuildError String :=
  match stack.container_registry with
  | none => ([], [], .error (.noContainerRegistry stack.name))
  | some registry =>
    let target_image_name :=
      registry.uri ++ "/" ++ cfg.target_repository ++ ":" ++ pipeline_name
    match build_docker_image env builder_parent_image target_image_name
        pipeline_name cfg stack entrypoint with
    | (events, some e) => (events, [], .error e)
    | (events, none) =>
      match env.pushOutcome target_image_name with
      | .error msg =>
        (events ++ [.pushImage target_image_name], [], .error (.pushFailed msg))
      | .ok repo_digest =>
        (events ++ [.pushImage target_image_name],
          [("docker_image", repo_digest)], .ok repo_digest)

/-- The values a keyword argument of the `DockerConfiguration` constructor
can carry, one constructor per field type of the model. -/
inductive FieldValue where
  | ostr (v : Option String)
  | str (v : String)
  | pairs (v : List (String × String))
  | oexp (v : Option PythonEnvironmentExportMethod)
  | oreq (v : Option RequirementsSource)
  | strs (v : List String)
  | bool (v : Bool)
deriving DecidableEq, Repr

/-- The enumerated field names of `DockerConfiguration`
(`docker_configuration.py`, lines 141-158). -/
def dockerConfigurationFieldNames : List String :=
  ["parent_image", "dockerfile", "build_context_root", "build_options",
   "target_repository", "replicate_local_python_environment", "requirements",
   "required_integrations", "install_stack_requirements", "environment",
   "dockerignore", "copy_files", "copy_profile"]

/-- Application of one keyword argument during `DockerConfiguration`
construction: a known field name with a value of its type updates the
field; any other name (pydantic `Extra.forbid`, `docker_configuration.py`
line 166) or an ill-typed value is a validation error carrying the
offending name. -/
def applyField (cfg : DockerConfiguration) (kv : String × FieldValue) :
    Except String DockerConfiguration :=
  if kv.1 = "parent_image" then
    match kv.2 with
    | .ostr v => .ok { cfg with parent_image := v }
    | _ => .error kv.1
  else if kv.1 = "dockerfile" then
    match kv.2 with
    | .ostr v => .ok { cfg with dockerfile := v }
    | _ => .error kv.1
  else if kv.1 = "build_context_root" then
    match kv.2 with
    | .ostr v => .ok { cfg with build_context_root := v }
    | _ => .error kv.1
  else if kv.1 = "build_options" then
    match kv.2 with
    | .pairs v => .ok { cfg with build_options := v }
    | _ => .error kv.1
  else if kv.1 = "target_repository" then
    match kv.2 with
    | .str v => .ok { cfg with target_repository := v }
    | _ => .error kv.1
  else if kv.1 = "replicate_local_python_environment" then
    match kv.2 with
    | .oexp v => .ok { cfg with replicate_local_python_environment := v }
    | _ => .error kv.1
  else if kv.1 = "requirements" then
    match kv.2 with
    | .oreq v => .ok { cfg with requirements := v }
    | _ => .error kv.1
  else if kv.1 = "required_integrations" then
    match kv.2 with
    | .strs v => .ok { cfg with required_integrations := v }
    | _ => .error kv.1
  else if kv.1 = "install_stack_requirements" then
    match kv.2 with
    | .bool v => .ok { cfg with install_stack_requirements := v }
    | _ => .error kv.1
  else if kv.1 = "environment" then
    match kv.2 with
    | .pairs v => .ok { cfg with environment := v }
    | _ => .error kv.1
  else if kv.1 = "dockerignore" then
    match kv.2 with
    | .ostr v => .ok { cfg with dockerignore := v }
    | _ => .error kv.1
  else if kv.1 = "copy_files" then
    match kv.2 with
    | .bool v => .ok { cfg with copy_files := v }
    | _ => .error kv.1
  else if kv.1 = "copy_profile" then
    match kv.2 with
    | .bool v => .ok { cfg with copy_profile := v }
    | _ => .error kv.1
  else .error kv.1

/-- Sequential validation of keyword arguments over a partially
constructed configuration. -/
def constructGo (cfg : DockerConfiguration) :
    List (String × FieldValue) → Except String DockerConfiguration
  | [] => .ok cfg
  | kv :: rest =>
    match applyField cfg kv with
    | .error e => .error e
    | .ok cfg' => constructGo cfg' rest

/-- Construction of a `DockerConfiguration` from keyword arguments:
start from the documented defaults and validate/apply each argument in
order, failing on the first unknown field name (the closed schema of
`DockerConfiguration.Config`). -/
def constructDockerConfiguration (kwargs : List (String × FieldValue)) :
    Except String DockerConfiguration :=
  constructGo {} kwargs

/-- Fixture: an integration registry offering two requirements. -/
def envOnlyIntegrations : BuildEnv :=
  { integrationRequirements := fun _ => ["pkg-b", "pkg-a"] }

/-- Fixture: a configuration with only integration requirements. -/
def cfgOnlyIntegrations : DockerConfiguration :=
  { required_integrations := ["foo"], install_stack_requirements := false }

/-- Fixture: two integrations with overlapping requirement sets. -/
def envDupIntegrations : BuildEnv :=
  { integrationRequirements := fun n =>
      if n = "i1" then ["b", "a"] else ["a", "c"] }

/-- Fixture: a configuration requiring both overlapping integrations. -/
def cfgDupIntegrations : DockerConfiguration :=
  { required_integrations := ["i1", "i2"] }

/-- Fixture: a stack contributing one duplicated requirement. -/
def stackDup : Stack := { stack_requirements := ["b"] }

/-- Fixture: a stack with a configured container registry. -/
def stackWithRegistry : Stack :=
  { container_registry := some { uri := "reg.io" } }

/-- Fixture: an environment whose final image build raises. -/
def envFail : BuildEnv := { synthBuildOutcome := some "boom" }

/-- Fixture: a Docker daemon for which every image is locally resident. -/
def envLocalAll : BuildEnv := { isLocalImage := fun _ => true }

/-- Fixture: a custom parent image with one environment variable and no
other build inputs. -/
def cfgCustomParent : DockerConfiguration :=
  { parent_image := some "custom-img", environment := [("a", "b")],
    install_stack_requirements := false, copy_files := false,
    copy_profile := false }

/-- Unfolding of `listCharLe` on two non-empty lists. -/
theorem listCharLe_cons {a b : Char} {as bs : List Char} :
    listCharLe (a :: as) (b :: bs) = true
      ↔ (a < b ∨ (a = b ∧ listCharLe as bs = true)) := by
  by_cases hab : a < b
  · simp [listCharLe, hab]
  · by_cases hba : b < a
    · have hne : a ≠ b := ne_of_gt hba
      simp [listCharLe, hab, hba, hne]
    · have heq : a = b := le_antisymm (not_lt.mp hba) (not_lt.mp hab)
      simp [listCharLe, hab, hba, heq]

/-- `listCharLe` is total. -/
theorem listCharLe_total :
    ∀ as bs : List Char, listCharLe as bs = true ∨ listCharLe bs as = true
  | [], _ => Or.inl rfl
  | _ :: _, [] => Or.inr rfl
  | a :: as, b :: bs => by
    rcases lt_trichotomy a b with h | h | h
    · exact Or.inl (listCharLe_cons.mpr (Or.inl h))
    · rcases listCharLe_total as bs with ih | ih
      · exact Or.inl (listCharLe_cons.mpr (Or.inr ⟨h, ih⟩))
      · exact Or.inr (listCharLe_cons.mpr (Or.inr ⟨h.symm, ih⟩))
    · exact Or.inr (listCharLe_cons.mpr (Or.inl h))

/-- `listCharLe` is transitive. -/
theorem listCharLe_trans :
    ∀ {as bs cs : List Char}, listCharLe as bs = true →
      listCharLe bs cs = true → listCharLe as cs = true
  | [], _, _, _, _ => rfl
  | _ :: _, [], _, h1, _ => by simp [listCharLe] at h1
  | _ :: _, _ :: _, [], _, h2 => by simp [listCharLe] at h2
  | a :: as, b :: bs, c :: cs, h1, h2 => by
    rcases listCharLe_cons.mp h1 with hab | ⟨hab, hrec1⟩ <;>
      rcases listCharLe_cons.mp h2 with hbc | ⟨hbc, hrec2⟩
    · exact listCharLe_cons.mpr (Or.inl (lt_trans hab hbc))
    · exact listCharLe_cons.mpr (Or.inl (hbc ▸ hab))
    · exact listCharLe_cons.mpr (Or.inl (hab ▸ hbc))
    · exact listCharLe_cons.mpr
        (Or.inr ⟨hab.trans hbc, listCharLe_trans hrec1 hrec2⟩)

/-- `listCharLe` is antisymmetric. -/
theorem listCharLe_antisymm :
    ∀ {as bs : List Char}, listCharLe as bs = true →
      listCharLe bs as = true → as = bs
  | [], [], _, _ => rfl
  | [], _ :: _, _, h2 => by simp [listCharLe] at h2
  | _ :: _, [], h1, _ => by simp [listCharLe] at h1
  | a :: as, b :: bs, h1, h2 => by
    rcases listCharLe_cons.mp h1 with hab | ⟨hab, hrec1⟩ <;>
      rcases listCharLe_cons.mp h2 with hba | ⟨hba, hrec2⟩
    · exact absurd hba (lt_asymm hab)
    · exact absurd hba.symm (ne_of_lt hab)
    · exact absurd hab.symm (ne_of_lt hba)
    · rw [hab, listCharLe_antisymm hrec1 hrec2]

/-- `strLe` is total. -/
theorem strLe_total (a b : String) : strLe a b = true ∨ strLe b a = true :=
  listCharLe_total a.data b.data

/-- `strLe` is transitive. -/
theorem strLe_trans {a b c : String} (h1 : strLe a b = true)
    (h2 : strLe b c = true) : strLe a c = true :=
  listCharLe_trans h1 h2

/-- `strLe` is antisymmetric. -/
theorem strLe_antisymm {a b : String} (h1 : strLe a b = true)
    (h2 : strLe b a = true) : a = b := by
  cases a with
  | mk da =>
    cases b with
    | mk db => exact congrArg String.mk (listCharLe_antisymm h1 h2)

/-- `sortedDedup` output is sorted under the lexicographic order. -/
theorem sortedDedup_sorted (l : List String) :
    List.Sorted (fun a b => strLe a b = true) (sortedDedup l) :=
  @List.sorted_insertionSort String (fun a b => strLe a b = true)
    (fun _ _ => inferInstance) ⟨strLe_total⟩ ⟨fun _ _ _ => strLe_trans⟩ l.dedup

/-- `sortedDedup` is a permutation of `dedup`. -/
theorem sortedDedup_perm (l : List String) : List.Perm (sortedDedup l) l.dedup :=
  List.perm_insertionSort _ l.dedup

/-- Membership in `sortedDedup` is membership in the input. -/
theorem mem_sortedDedup {s : String} {l : List String} :
    s ∈ sortedDedup l ↔ s ∈ l := by
  rw [(sortedDedup_perm l).mem_iff, List.mem_dedup]

/-- `sortedDedup` output has no duplicates. -/
theorem sortedDedup_nodup (l : List String) : (sortedDedup l).Nodup :=
  (sortedDedup_perm l).symm.nodup (List.nodup_dedup l)

/-- `sortedDedup` only depends on the set of elements of its input: runs
with duplicated or reordered requirement sources serialize identically. -/
theorem sortedDedup_eq_of_mem_iff {l₁ l₂ : List String}
    (h : ∀ s, s ∈ l₁ ↔ s ∈ l₂) : sortedDedup l₁ = sortedDedup l₂ := by
  refine @List.eq_of_perm_of_sorted String (fun a b => strLe a b = true)
    ⟨fun _ _ => strLe_antisymm⟩ _ _ ?_ (sortedDedup_sorted l₁) (sortedDedup_sorted l₂)
  refine (List.perm_ext_iff_of_nodup (sortedDedup_nodup l₁) (sortedDedup_nodup l₂)).mpr ?_
  intro s
  rw [mem_sortedDedup, mem_sortedDedup]
  exact h s

/-- `sortedDedup` is empty exactly when its input is. -/
theorem sortedDedup_eq_nil_iff {l : List String} :
    sortedDedup l = [] ↔ l = [] := by
  constructor
  · intro h
    rcases l with _ | ⟨a, l⟩
    · rfl
    · have : a ∈ sortedDedup (a :: l) := mem_sortedDedup.mpr (List.mem_cons_self a l)
      rw [h] at this
      exact absurd this (List.not_mem_nil a)
  · intro h
    subst h
    rfl

/-- A falsy optional string falls through Python's `or`. -/
theorem py_str_or_of_falsy {o : Option String} {d : String}
    (h : strTruthy o = false) : py_str_or o d = d := by
  cases o with
  | none => rfl
  | some s =>
    simp only [strTruthy, Bool.not_eq_false'] at h
    simp [py_str_or, h]

/-- The only error `_gather_requirements_files` raises is the failed
local-environment export. -/
theorem gather_error_eq {env : BuildEnv} {cfg : DockerConfiguration}
    {stack : Stack} {e : BuildError}
    (h : gather_requirements_files env cfg stack = .error e) :
    e = .localEnvironmentExportFailed := by
  unfold gather_requirements_files at h
  cases hrep : cfg.replicate_local_python_environment with
  | none => rw [hrep] at h; exact absurd h (by simp)
  | some m =>
    rw [hrep] at h
    cases hexp : env.localEnvExport with
    | ok out => rw [hexp] at h; exact absurd h (by simp)
    | error msg => rw [hexp] at h; simpa using h.symm

/-- Shape of a successful `_gather_requirements_files` run: the optional
local-environment file, then the user file, then the integration file. -/
theorem gather_ok_shape {env : BuildEnv} {cfg : DockerConfiguration}
    {stack : Stack} {rf : List (String × String)}
    (h : gather_requirements_files env cfg stack = .ok rf) :
    ∃ localFiles,
      rf = localFiles ++ user_requirement_files env cfg
          ++ integration_requirement_files env cfg stack
      ∧ ((cfg.replicate_local_python_environment = none ∧ localFiles = [])
        ∨ (cfg.replicate_local_python_environment.isSome = true
            ∧ ∃ out, env.localEnvExport = .ok out
              ∧ localFiles = [(".zenml_local_requirements", out)])) := by
  unfold gather_requirements_files at h
  cases hrep : cfg.replicate_local_python_environment with
  | none =>
    rw [hrep] at h
    refine ⟨[], ?_, Or.inl ⟨rfl, rfl⟩⟩
    simpa using h.symm
  | some m =>
    rw [hrep] at h
    cases hexp : env.localEnvExport with
    | error msg => rw [hexp] at h; exact absurd h (by simp)
    | ok out =>
      rw [hexp] at h
      refine ⟨[(".zenml_local_requirements", out)], ?_,
        Or.inr ⟨rfl, out, rfl, rfl⟩⟩
      have := h
      simp only [Except.ok.injEq] at this
      simpa [List.append_assoc] using this.symm

/-- Shape of the synthesis stage on a successful requirements gathering:
the single synthesized build, wrapped in the profile copy/removal pair
when `copy_profile` is set. -/
theorem zenmlBuildStage_ok {env : BuildEnv} {cfg : DockerConfiguration}
    {stack : Stack} {p t : String} {ep : Option String}
    {rf : List (String × String)}
    (h : gather_requirements_files env cfg stack = .ok rf) :
    zenmlBuildStage env cfg stack p t ep =
      ((if cfg.copy_profile then
          [BuildEvent.copyActiveConfiguration
              (env.sourceRootPath ++ "/" ++ DOCKER_IMAGE_ZENML_CONFIG_DIR),
            BuildEvent.buildZenmlImage t
              (generate_zenml_pipeline_dockerfile p cfg (rf.map Prod.fst) ep)
              (some env.sourceRootPath) cfg.dockerignore rf
              (computePullParentImage env.isLocalImage p),
            BuildEvent.rmtree
              (env.sourceRootPath ++ "/" ++ DOCKER_IMAGE_ZENML_CONFIG_DIR)]
        else
          [BuildEvent.buildZenmlImage t
              (generate_zenml_pipeline_dockerfile p cfg (rf.map Prod.fst) ep)
              (if cfg.copy_files then some env.sourceRootPath else none)
              cfg.dockerignore rf
              (computePullParentImage env.isLocalImage p)]),
        env.synthBuildOutcome.map BuildError.imageBuildFailed) := by
  unfold zenmlBuildStage
  rw [h]
  cases hcp : cfg.copy_profile <;> simp [hcp]

/-- The errors the synthesis stage can propagate. -/
theorem zenmlBuildStage_err (env : BuildEnv) (cfg : DockerConfiguration)
    (stack : Stack) (p t : String) (ep : Option String) :
    (zenmlBuildStage env cfg stack p t ep).2 = none
    ∨ (zenmlBuildStage env cfg stack p t ep).2
        = some .localEnvironmentExportFailed
    ∨ ∃ m, (zenmlBuildStage env cfg stack p t ep).2
        = some (.imageBuildFailed m) := by
  cases hg : gather_requirements_files env cfg stack with
  | error e =>
    refine Or.inr (Or.inl ?_)
    unfold zenmlBuildStage
    rw [hg]
    simp [gather_error_eq hg]
  | ok rf =>
    rw [zenmlBuildStage_ok hg]
    cases ho : env.synthBuildOutcome with
    | none => exact Or.inl (by simp [ho])
    | some m => exact Or.inr (Or.inr ⟨m, by simp [ho]⟩)

/-- Any synthesized-image build event of the stage targets the stage's
image name, builds the Dockerfile generated from the stage's parent and
the gathered file names, and carries the computed pull flag. -/
theorem mem_zenmlBuildStage_buildZenml {env : BuildEnv}
    {cfg : DockerConfiguration} {stack : Stack} {p t : String}
    {ep : Option String} {n : String} {df : List String}
    {ctx : Option String} {di : Option String}
    {ef : List (String × String)} {pull : Bool}
    (h : BuildEvent.buildZenmlImage n df ctx di ef pull
        ∈ (zenmlBuildStage env cfg stack p t ep).1) :
    n = t ∧ ∃ rf, gather_requirements_files env cfg stack = .ok rf
      ∧ df = generate_zenml_pipeline_dockerfile p cfg (rf.map Prod.fst) ep
      ∧ pull = computePullParentImage env.isLocalImage p := by
  cases hg : gather_requirements_files env cfg stack with
  | error e =>
    unfold zenmlBuildStage at h
    rw [hg] at h
    simp at h
  | ok rf =>
    rw [zenmlBuildStage_ok hg] at h
    cases hcp : cfg.copy_profile <;> rw [hcp] at h <;> simp at h <;>
      obtain ⟨hn, hdf, _, _, _, hpull⟩ := h <;>
      exact ⟨hn, rf, rfl, hdf, hpull⟩

/-- The errors `build_docker_image` can propagate. -/
theorem build_docker_image_err (env : BuildEnv) (bp : Option String)
    (t pn : String) (cfg : DockerConfiguration) (stack : Stack)
    (ep : Option String) :
    (build_docker_image env bp t pn cfg stack ep).2 = none
    ∨ (build_docker_image env bp t pn cfg stack ep).2
        = some .insufficientConfiguration
    ∨ (build_docker_image env bp t pn cfg stack ep).2
        = some .localEnvironmentExportFailed
    ∨ ∃ m, (build_docker_image env bp t pn cfg stack ep).2
        = some (.imageBuildFailed m) := by
  unfold build_docker_image
  cases hdf : strTruthy cfg.dockerfile <;>
    cases hreq : requires_zenml_build cfg ep <;> simp [hdf, hreq]
  · split
    · simp
    · simp
  · rcases zenmlBuildStage_err env cfg stack
        (py_str_or cfg.parent_image
          (py_str_or bp DEFAULT_DOCKER_PARENT_IMAGE)) t ep with h | h | ⟨m, h⟩
    · exact Or.inl h
    · exact Or.inr (Or.inr (Or.inl h))
    · exact Or.inr (Or.inr (Or.inr ⟨m, h⟩))
  · rcases zenmlBuildStage_err env cfg stack
        ("zenml-intermediate-build:" ++ pn) t ep with h | h | ⟨m, h⟩
    · exact Or.inl h
    · exact Or.inr (Or.inr (Or.inl h))
    · exact Or.inr (Or.inr (Or.inr ⟨m, h⟩))

/-- The first synthesized Dockerfile line is the FROM line for the parent. -/
theorem generate_head (p : String) (cfg : DockerConfiguration)
    (names : List String) (ep : Option String) :
    (generate_zenml_pipeline_dockerfile p cfg names ep).head?
      = some ("FROM " ++ p) := rfl

/-- Every configured environment variable yields an ENV line in the
synthesized Dockerfile. -/
theorem generate_mem_env_line {cfg : DockerConfiguration}
    {kv : String × String} (p : String) (names : List String)
    (ep : Option String) (hkv : kv ∈ cfg.environment) :
    ("ENV " ++ pyUpper kv.1 ++ "=" ++ kv.2)
      ∈ generate_zenml_pipeline_dockerfile p cfg names ep := by
  unfold generate_zenml_pipeline_dockerfile
  have h1 : ("ENV " ++ pyUpper kv.1 ++ "=" ++ kv.2)
      ∈ cfg.environment.map (fun kv => "ENV " ++ pyUpper kv.1 ++ "=" ++ kv.2) :=
    List.mem_map_of_mem _ hkv
  simp only [List.mem_append]
  tauto

/-- Claim C1, counterexample: a configuration with `dockerfile`,
`requirements`, `required_integrations` and `environment` unset/empty,
`copy_files` and `copy_profile` false, no entrypoint and no custom parent
image — but `install_stack_requirements` left at its default `True` — does
NOT fail with the insufficient-build-configuration error: no error is
raised and one (synthesized) build call is performed. -/
theorem C1_counterexample :
    (build_docker_image {} none "target" "pipeline"
        { copy_files := false, copy_profile := false } {} none).2 = none
    ∧ ((build_docker_image {} none "target" "pipeline"
        { copy_files := false, copy_profile := false } {} none).1.filter
          BuildEvent.isBuildCall).length = 1 := by
  exact ⟨by decide, by decide⟩

/-- Claim C1 (amended): with additionally
`replicate_local_python_environment` unset and
`install_stack_requirements` false, `build_docker_image` raises the
insufficient-build-configuration `ValueError` and performs no build or tag
call. -/
theorem C1_insufficient_configuration (env : BuildEnv) (bp : Option String)
    (target pipeline : String) (cfg : DockerConfiguration) (stack : Stack)
    (entrypoint : Option String)
    (hdf : strTruthy cfg.dockerfile = false)
    (hreq : requirementsTruthy cfg.requirements = false)
    (hint : cfg.required_integrations = [])
    (hrep : cfg.replicate_local_python_environment = none)
    (hstack : cfg.install_stack_requirements = false)
    (henv : cfg.environment = [])
    (hcf : cfg.copy_files = false)
    (hcp : cfg.copy_profile = false)
    (hep : strTruthy entrypoint = false)
    (hpar : strTruthy cfg.parent_image = false)
    (hbp : strTruthy bp = false) :
    build_docker_image env bp target pipeline cfg stack entrypoint
      = ([], some .insufficientConfiguration) := by
  have hreqs : requires_zenml_build cfg entrypoint = false := by
    simp [requires_zenml_build, hreq, hint, hrep, hstack, henv, hcf, hcp, hep]
  simp [build_docker_image, hdf, hreqs, py_str_or_of_falsy hpar,
    py_str_or_of_falsy hbp]

/-- Claim C1 witness: the amended statement evaluated at a concrete
all-falsy configuration. -/
theorem C1_witness :
    build_docker_image {} none "target" "pipeline"
        { install_stack_requirements := false, copy_files := false,
          copy_profile := false } {} none
      = ([], some .insufficientConfiguration) :=
  C1_insufficient_configuration {} none "target" "pipeline"
    { install_stack_requirements := false, copy_files := false,
      copy_profile := false } {} none
    rfl rfl rfl rfl rfl rfl rfl rfl rfl rfl rfl

/-- Claim C2: for a default-constructed `DockerConfiguration` the defaults
(`install_stack_requirements`, `copy_files`, `copy_profile` all true) make
`requires_zenml_build` true, so the insufficient-build-configuration
branch is unreachable and a synthesized build targeting
`target_image_name` is always attempted. -/
theorem C2_default_config_always_synthesizes (env : BuildEnv)
    (bp : Option String) (target pipeline : String) (stack : Stack)
    (entrypoint : Option String) :
    (build_docker_image env bp target pipeline {} stack entrypoint).2
        ≠ some BuildError.insufficientConfiguration
    ∧ ∃ df ctx di ef pull,
        BuildEvent.buildZenmlImage target df ctx di ef pull
          ∈ (build_docker_image env bp target pipeline {} stack entrypoint).1 := by
  have hreqs : requires_zenml_build ({} : DockerConfiguration) entrypoint
      = true := by
    simp [requires_zenml_build]
  have hb : build_docker_image env bp target pipeline {} stack entrypoint
      = zenmlBuildStage env {} stack
          (py_str_or none (py_str_or bp DEFAULT_DOCKER_PARENT_IMAGE))
          target entrypoint := by
    simp [build_docker_image, hreqs, strTruthy]
  have hg : gather_requirements_files env ({} : DockerConfiguration) stack
      = .ok (user_requirement_files env {}
          ++ integration_requirement_files env {} stack) := rfl
  rw [hb, zenmlBuildStage_ok hg]
  constructor
  · cases env.synthBuildOutcome <;> simp
  · simp

/-- Claim C3: with a (truthy) custom Dockerfile configured, if none of the
`requires_zenml_build` conditions holds the build is exactly one custom
build under `target_image_name`; if one holds (and requirements gathering
succeeds) there are exactly two build calls, the first building the custom
Dockerfile under the deterministic intermediate name
`zenml-intermediate-build:{pipeline_name}` and the second synthesizing a
Dockerfile whose FROM parent is that intermediate name, with an ENV line
for every configured environment variable. -/
theorem C3_custom_dockerfile_strategy (env : BuildEnv) (bp : Option String)
    (target pipeline : String) (cfg : DockerConfiguration) (stack : Stack)
    (ep : Option String) (df : String)
    (hdf : cfg.dockerfile = some df) (hne : df ≠ "") :
    (requires_zenml_build cfg ep = false →
      build_docker_image env bp target pipeline cfg stack ep
        = ([BuildEvent.buildCustomImage target df cfg.build_context_root
            cfg.build_options], none))
    ∧ (requires_zenml_build cfg ep = true →
      ∀ rf, gather_requirements_files env cfg stack = .ok rf →
        ((build_docker_image env bp target pipeline cfg stack ep).1.filter
            BuildEvent.isBuildCall)
          = [BuildEvent.buildCustomImage
                ("zenml-intermediate-build:" ++ pipeline) df
                cfg.build_context_root cfg.build_options,
              BuildEvent.buildZenmlImage target
                (generate_zenml_pipeline_dockerfile
                  ("zenml-intermediate-build:" ++ pipeline) cfg
                  (rf.map Prod.fst) ep)
                (if cfg.copy_files || cfg.copy_profile then
                  some env.sourceRootPath else none)
                cfg.dockerignore rf
                (computePullParentImage env.isLocalImage
                  ("zenml-intermediate-build:" ++ pipeline))]
        ∧ (generate_zenml_pipeline_dockerfile
              ("zenml-intermediate-build:" ++ pipeline) cfg
              (rf.map Prod.fst) ep).head?
            = some ("FROM " ++ ("zenml-intermediate-build:" ++ pipeline))
        ∧ ∀ kv ∈ cfg.environment,
            ("ENV " ++ pyUpper kv.1 ++ "=" ++ kv.2)
              ∈ generate_zenml_pipeline_dockerfile
                  ("zenml-intermediate-build:" ++ pipeline) cfg
                  (rf.map Prod.fst) ep) := by
  have hempty : df.isEmpty = false := by
    rw [Bool.eq_false_iff]
    intro hc
    exact hne ((String.isEmpty_iff df).mp hc)
  have hdft : strTruthy (some df) = true := by
    simp [strTruthy, hempty]
  constructor
  · intro h
    simp [build_docker_image, hdf, hdft, h]
  · intro h rf hg
    refine ⟨?_, generate_head _ _ _ _, fun kv hkv =>
      generate_mem_env_line _ _ _ hkv⟩
    have hb : build_docker_image env bp target pipeline cfg stack ep
        = (BuildEvent.buildCustomImage
              ("zenml-intermediate-build:" ++ pipeline) df
              cfg.build_context_root cfg.build_options
            :: (zenmlBuildStage env cfg stack
                ("zenml-intermediate-build:" ++ pipeline) target ep).1,
          (zenmlBuildStage env cfg stack
            ("zenml-intermediate-build:" ++ pipeline) target ep).2) := by
      simp [build_docker_image, hdf, hdft, h]
    rw [hb, zenmlBuildStage_ok hg]
    cases hcp : cfg.copy_profile <;>
      simp [List.filter, BuildEvent.isBuildCall, hcp]

/-- Claim C3 witness: the spec's example — custom Dockerfile plus one
environment variable — evaluated concretely: two build calls, the second
synthesizing from the intermediate parent with the `ENV A=1` line. -/
theorem C3_witness :
    ((build_docker_image {} none "tgt" "pipe"
        { dockerfile := some "Dockerfile.custom", environment := [("A", "1")],
          install_stack_requirements := false, copy_files := false,
          copy_profile := false } {} none).1.filter BuildEvent.isBuildCall)
      = [BuildEvent.buildCustomImage ("zenml-intermediate-build:" ++ "pipe")
            "Dockerfile.custom" none [],
          BuildEvent.buildZenmlImage "tgt"
            (generate_zenml_pipeline_dockerfile
              ("zenml-intermediate-build:" ++ "pipe")
              { dockerfile := some "Dockerfile.custom",
                environment := [("A", "1")],
                install_stack_requirements := false, copy_files := false,
                copy_profile := false } [] none)
            none none []
            (computePullParentImage (fun _ => false)
              ("zenml-intermediate-build:" ++ "pipe"))]
    ∧ (generate_zenml_pipeline_dockerfile ("zenml-intermediate-build:" ++ "pipe")
          { dockerfile := some "Dockerfile.custom", environment := [("A", "1")],
            install_stack_requirements := false, copy_files := false,
            copy_profile := false } [] none).head?
        = some ("FROM " ++ ("zenml-intermediate-build:" ++ "pipe"))
    ∧ ∀ kv ∈ [("A", "1")],
        ("ENV " ++ pyUpper (Prod.fst kv) ++ "=" ++ Prod.snd kv)
          ∈ generate_zenml_pipeline_dockerfile
              ("zenml-intermediate-build:" ++ "pipe")
              { dockerfile := some "Dockerfile.custom",
                environment := [("A", "1")],
                install_stack_requirements := false, copy_files := false,
                copy_profile := false } [] none := by
  have h := (C3_custom_dockerfile_strategy {} none "tgt" "pipe"
      { dockerfile := some "Dockerfile.custom", environment := [("A", "1")],
        install_stack_requirements := false, copy_files := false,
        copy_profile := false } {} none "Dockerfile.custom" rfl
      (by decide)).2 (by decide) [] rfl
  exact h

/-- The user-requirements slot is either absent (no truthy content) or the
single fixed-name file holding the truthy content. -/
theorem user_files_cases (env : BuildEnv) (cfg : DockerConfiguration) :
    (user_requirement_files env cfg = []
      ∧ ¬ ∃ c, userRequirementsContent env cfg = some c ∧ c ≠ "")
    ∨ ∃ c, user_requirement_files env cfg = [(".zenml_user_requirements", c)]
        ∧ userRequirementsContent env cfg = some c ∧ c ≠ "" := by
  cases hu : userRequirementsContent env cfg with
  | none =>
    left
    exact ⟨by simp only [user_requirement_files, hu], by simp⟩
  | some c =>
    by_cases hc : c.isEmpty
    · left
      have hce : c = "" := (String.isEmpty_iff c).mp hc
      subst hce
      refine ⟨?_, ?_⟩
      · simp only [user_requirement_files, hu]
        decide
      · simp
    · right
      refine ⟨c, ?_, rfl, ?_⟩
      · simp only [user_requirement_files, hu]
        simp [hc]
      · intro hce
        subst hce
        exact absurd hc (by decide)

/-- The integration-requirements slot is either absent (empty union) or the
single fixed-name file holding the serialized union. -/
theorem integration_files_cases (env : BuildEnv) (cfg : DockerConfiguration)
    (stack : Stack) :
    (integration_requirement_files env cfg stack = []
      ∧ integrationAndStackRequirements env cfg stack = [])
    ∨ (integration_requirement_files env cfg stack
        = [(".zenml_integration_requirements",
            String.intercalate "\n"
              (sortedDedup (integrationAndStackRequirements env cfg stack)))]
      ∧ integrationAndStackRequirements env cfg stack ≠ []) := by
  by_cases hi : (integrationAndStackRequirements env cfg stack).isEmpty
  · left
    exact ⟨by simp [integration_requirement_files, hi],
      List.isEmpty_iff.mp hi⟩
  · right
    refine ⟨by simp [integration_requirement_files, hi], ?_⟩
    intro hc
    rw [hc] at hi
    simp at hi

/-- The user slot's name list is empty or the fixed singleton. -/
theorem user_files_name_cases (env : BuildEnv) (cfg : DockerConfiguration) :
    (user_requirement_files env cfg).map Prod.fst = []
    ∨ (user_requirement_files env cfg).map Prod.fst
        = [".zenml_user_requirements"] := by
  rcases user_files_cases env cfg with ⟨hU, _⟩ | ⟨c, hU, _, _⟩ <;> simp [hU]

/-- The integration slot's name list is empty or the fixed singleton. -/
theorem integration_files_name_cases (env : BuildEnv)
    (cfg : DockerConfiguration) (stack : Stack) :
    (integration_requirement_files env cfg stack).map Prod.fst = []
    ∨ (integration_requirement_files env cfg stack).map Prod.fst
        = [".zenml_integration_requirements"] := by
  rcases integration_files_cases env cfg stack with ⟨hI, _⟩ | ⟨hI, _⟩ <;>
    simp [hI]

/-- Presence of the user slot is equivalent to truthy user content. -/
theorem mem_user_slot_iff (env : BuildEnv) (cfg : DockerConfiguration) :
    ".zenml_user_requirements" ∈ (user_requirement_files env cfg).map Prod.fst
      ↔ ∃ c, userRequirementsContent env cfg = some c ∧ c ≠ "" := by
  rcases user_files_cases env cfg with ⟨hU, hUc⟩ | ⟨c, hU, hUc, hcne⟩
  · rw [hU]
    simp [hUc]
  · rw [hU]
    simp
    exact ⟨c, hUc, hcne⟩

/-- Presence of the integration slot is equivalent to a non-empty union. -/
theorem mem_integration_slot_iff (env : BuildEnv) (cfg : DockerConfiguration)
    (stack : Stack) :
    ".zenml_integration_requirements"
        ∈ (integration_requirement_files env cfg stack).map Prod.fst
      ↔ integrationAndStackRequirements env cfg stack ≠ [] := by
  rcases integration_files_cases env cfg stack with ⟨hI, hIc⟩ | ⟨hI, hIc⟩
  · rw [hI]
    simp [hIc]
  · rw [hI]
    simp
    exact hIc

/-- A differently named entry never occurs in the user slot. -/
theorem user_slot_no_foreign_pair (env : BuildEnv) (cfg : DockerConfiguration)
    (s : String) (hs : s ≠ ".zenml_user_requirements") :
    ∀ x, (s, x) ∉ user_requirement_files env cfg := by
  intro x
  rcases user_files_cases env cfg with ⟨hU, _⟩ | ⟨c, hU, _, _⟩ <;>
    simp [hU, hs]

/-- A differently named entry never occurs in the integration slot. -/
theorem integration_slot_no_foreign_pair (env : BuildEnv)
    (cfg : DockerConfiguration) (stack : Stack) (s : String)
    (hs : s ≠ ".zenml_integration_requirements") :
    ∀ x, (s, x) ∉ integration_requirement_files env cfg stack := by
  intro x
  rcases integration_files_cases env cfg stack with ⟨hI, _⟩ | ⟨hI, _⟩ <;>
    simp [hI, hs]

/-- Claim C4, counterexample: with `replicate_local_python_environment`
set and the export subprocess producing empty output, the gathered list
contains an empty `.zenml_local_requirements` file — the slot is present
even though its source content is empty, contradicting the claimed
"present exactly when set and non-empty / never an empty file". -/
theorem C4_counterexample :
    gather_requirements_files {}
        { replicate_local_python_environment := some .pip_freeze,
          install_stack_requirements := false } {}
      = .ok [(".zenml_local_requirements", "")] := by
  decide

/-- Claim C4 (amended): the gathered sequence is a sub-sequence of the
three fixed slots, in order; the local slot is present exactly when
`replicate_local_python_environment` is set (its content may be empty),
the user slot exactly when the user-requirements content is a non-empty
string, the integration slot exactly when the requirement union is
non-empty; relative order of slots never changes. -/
theorem C4_requirements_files_slots (env : BuildEnv)
    (cfg : DockerConfiguration) (stack : Stack) (rf : List (String × String))
    (h : gather_requirements_files env cfg stack = .ok rf) :
    List.Sublist (rf.map Prod.fst)
        [".zenml_local_requirements", ".zenml_user_requirements",
         ".zenml_integration_requirements"]
    ∧ (".zenml_local_requirements" ∈ rf.map Prod.fst
        ↔ cfg.replicate_local_python_environment.isSome = true)
    ∧ (".zenml_user_requirements" ∈ rf.map Prod.fst
        ↔ ∃ c, userRequirementsContent env cfg = some c ∧ c ≠ "")
    ∧ (".zenml_integration_requirements" ∈ rf.map Prod.fst
        ↔ integrationAndStackRequirements env cfg stack ≠ []) := by
  rcases gather_ok_shape h with ⟨L, hrf, hL⟩
  subst hrf
  have hLm : L.map Prod.fst = []
      ∨ L.map Prod.fst = [".zenml_local_requirements"] := by
    rcases hL with ⟨_, hLx⟩ | ⟨_, out, _, hLx⟩ <;> subst hLx <;> simp
  refine ⟨?_, ?_, ?_, ?_⟩
  · rcases hLm with h1 | h1 <;>
      rcases user_files_name_cases env cfg with h2 | h2 <;>
      rcases integration_files_name_cases env cfg stack with h3 | h3 <;>
      simp only [List.map_append, h1, h2, h3] <;> decide
  · rcases hL with ⟨hrep, hLx⟩ | ⟨hrep, out, hexp, hLx⟩ <;> subst hLx <;>
      simp [List.mem_append, hrep,
        user_slot_no_foreign_pair env cfg ".zenml_local_requirements"
          (by decide),
        integration_slot_no_foreign_pair env cfg stack
          ".zenml_local_requirements" (by decide)]
  · rcases hL with ⟨hrep, hLx⟩ | ⟨hrep, out, hexp, hLx⟩ <;> subst hLx <;>
      simp [List.mem_append, mem_user_slot_iff env cfg,
        integration_slot_no_foreign_pair env cfg stack
          ".zenml_user_requirements" (by decide)]
  · rcases hL with ⟨hrep, hLx⟩ | ⟨hrep, out, hexp, hLx⟩ <;> subst hLx <;>
      simp [List.mem_append, mem_integration_slot_iff env cfg stack,
        user_slot_no_foreign_pair env cfg ".zenml_integration_requirements"
          (by decide)]

/-- Claim C4 witness: the amended statement evaluated on a configuration
with only integration requirements — exactly one file, in the integration
slot. -/
theorem C4_witness :
    List.Sublist
        (([(".zenml_integration_requirements", "pkg-a\npkg-b")].map Prod.fst))
        [".zenml_local_requirements", ".zenml_user_requirements",
         ".zenml_integration_requirements"]
    ∧ (".zenml_local_requirements"
          ∈ [(".zenml_integration_requirements", "pkg-a\npkg-b")].map Prod.fst
        ↔ cfgOnlyIntegrations.replicate_local_python_environment.isSome = true)
    ∧ (".zenml_user_requirements"
          ∈ [(".zenml_integration_requirements", "pkg-a\npkg-b")].map Prod.fst
        ↔ ∃ c, userRequirementsContent envOnlyIntegrations cfgOnlyIntegrations
            = some c ∧ c ≠ "")
    ∧ (".zenml_integration_requirements"
          ∈ [(".zenml_integration_requirements", "pkg-a\npkg-b")].map Prod.fst
        ↔ integrationAndStackRequirements envOnlyIntegrations
            cfgOnlyIntegrations {} ≠ []) :=
  C4_requirements_files_slots envOnlyIntegrations cfgOnlyIntegrations {}
    [(".zenml_integration_requirements", "pkg-a\npkg-b")] (by decide)

/-- Claim C5: the integration-requirements file holds exactly the sorted,
deduplicated union of the integration and (when enabled) stack
requirements joined with newlines; it is emitted exactly when the union is
non-empty; the serialized order is sorted with no duplicates and contains
exactly the union's elements; and any source list with the same element
set — duplicates and order notwithstanding — serializes identically. -/
theorem C5_integration_union_deterministic (env : BuildEnv)
    (cfg : DockerConfiguration) (stack : Stack) (rf : List (String × String))
    (h : gather_requirements_files env cfg stack = .ok rf) :
    (∀ c, (".zenml_integration_requirements", c) ∈ rf
        ↔ (integrationAndStackRequirements env cfg stack ≠ []
            ∧ c = String.intercalate "\n"
                (sortedDedup (integrationAndStackRequirements env cfg stack))))
    ∧ List.Sorted (fun a b => strLe a b = true)
        (sortedDedup (integrationAndStackRequirements env cfg stack))
    ∧ (sortedDedup (integrationAndStackRequirements env cfg stack)).Nodup
    ∧ (∀ s, s ∈ sortedDedup (integrationAndStackRequirements env cfg stack)
        ↔ s ∈ integrationAndStackRequirements env cfg stack)
    ∧ (∀ l : List String,
        (∀ s, s ∈ l ↔ s ∈ integrationAndStackRequirements env cfg stack) →
        sortedDedup l
          = sortedDedup (integrationAndStackRequirements env cfg stack)) := by
  refine ⟨?_, sortedDedup_sorted _, sortedDedup_nodup _,
    fun s => mem_sortedDedup, fun l hl => sortedDedup_eq_of_mem_iff hl⟩
  rcases gather_ok_shape h with ⟨L, hrf, hL⟩
  subst hrf
  intro c
  rcases hL with ⟨hrep, hLx⟩ | ⟨hrep, out, hexp, hLx⟩ <;> subst hLx <;>
    rcases integration_files_cases env cfg stack with ⟨hI, hIc⟩ | ⟨hI, hIc⟩ <;>
    rw [hI] <;>
    simp [hIc, List.mem_append,
      user_slot_no_foreign_pair env cfg ".zenml_integration_requirements"
        (by decide)]

/-- Claim C5 witness: two integrations with overlapping requirements plus a
duplicated stack requirement serialize to the sorted deduplicated union. -/
theorem C5_witness :
    (∀ c, (".zenml_integration_requirements", c)
          ∈ [(".zenml_integration_requirements", "a\nb\nc")]
        ↔ (integrationAndStackRequirements envDupIntegrations
              cfgDupIntegrations stackDup ≠ []
            ∧ c = String.intercalate "\n"
                (sortedDedup (integrationAndStackRequirements
                  envDupIntegrations cfgDupIntegrations stackDup))))
    ∧ List.Sorted (fun a b => strLe a b = true)
        (sortedDedup (integrationAndStackRequirements envDupIntegrations
          cfgDupIntegrations stackDup))
    ∧ (sortedDedup (integrationAndStackRequirements envDupIntegrations
        cfgDupIntegrations stackDup)).Nodup
    ∧ (∀ s, s ∈ sortedDedup (integrationAndStackRequirements
          envDupIntegrations cfgDupIntegrations stackDup)
        ↔ s ∈ integrationAndStackRequirements envDupIntegrations
            cfgDupIntegrations stackDup)
    ∧ (∀ l : List String,
        (∀ s, s ∈ l ↔ s ∈ integrationAndStackRequirements envDupIntegrations
            cfgDupIntegrations stackDup) →
        sortedDedup l = sortedDedup (integrationAndStackRequirements
          envDupIntegrations cfgDupIntegrations stackDup)) :=
  C5_integration_union_deterministic envDupIntegrations cfgDupIntegrations
    stackDup [(".zenml_integration_requirements", "a\nb\nc")] (by decide)

/-- The synthesized Dockerfile is a cons whose head is the FROM line. -/
theorem generate_cons (p : String) (cfg : DockerConfiguration)
    (names : List String) (ep : Option String) :
    generate_zenml_pipeline_dockerfile p cfg names ep
      = ("FROM " ++ p)
        :: (generate_zenml_pipeline_dockerfile p cfg names ep).tail := rfl

/-- Claim C6: the Dockerfile synthesizer's output is exactly, in order:
the FROM line, the fixed WORKDIR line, the profile-config ENV line when
`copy_profile`, one upper-cased ENV line per environment entry in
insertion order, a COPY/RUN-pip-install pair per requirement file in
order, the full-context COPY when `copy_files` (else the profile-dir COPY
when `copy_profile`), the unconditional chmod line, and the ENTRYPOINT
line exactly when a (truthy) entrypoint is provided — so setting the
entrypoint appends exactly one trailing instruction. -/
theorem C6_dockerfile_synthesizer (p : String) (cfg : DockerConfiguration)
    (files : List String) (ep : Option String) :
    generate_zenml_pipeline_dockerfile p cfg files ep
      = ["FROM " ++ p, "WORKDIR /app"]
        ++ (if cfg.copy_profile then ["ENV ZENML_CONFIG_PATH=/app/.zenconfig"]
            else [])
        ++ cfg.environment.map (fun kv => "ENV " ++ pyUpper kv.1 ++ "=" ++ kv.2)
        ++ files.flatMap (fun f =>
            ["COPY " ++ f ++ " .", "RUN pip install --no-cache-dir -r " ++ f])
        ++ (if cfg.copy_files then ["COPY . ."]
            else if cfg.copy_profile then ["COPY .zenconfig ."] else [])
        ++ ["RUN chmod -R a+rw ."]
        ++ (match ep with
            | some e => if e.isEmpty then [] else ["ENTRYPOINT " ++ e]
            | none => [])
    ∧ ∀ e, e ≠ "" →
        generate_zenml_pipeline_dockerfile p cfg files (some e)
          = generate_zenml_pipeline_dockerfile p cfg files none
            ++ ["ENTRYPOINT " ++ e] := by
  refine ⟨rfl, ?_⟩
  intro e he
  have hempty : e.isEmpty = false := by
    rw [Bool.eq_false_iff]
    intro hc
    exact he ((String.isEmpty_iff e).mp hc)
  simp [generate_zenml_pipeline_dockerfile, hempty]

/-- Claim C6 witness: changing only the entrypoint from unset to a
non-empty command appends exactly the one ENTRYPOINT instruction. -/
theorem C6_witness :
    generate_zenml_pipeline_dockerfile "parent" {} ["reqs.txt"]
        (some "python run.py")
      = generate_zenml_pipeline_dockerfile "parent" {} ["reqs.txt"] none
        ++ ["ENTRYPOINT python run.py"] :=
  (C6_dockerfile_synthesizer "parent" {} ["reqs.txt"]
    (some "python run.py")).2 "python run.py" (by decide)

/-- Claim C7: the pull flag of the synthesis build is false exactly when
the effective parent image is the version-pinned default constant or the
locality check reports it locally resident; and every synthesized build
event of `build_docker_image` carries the pull flag computed this way from
the parent named in its own FROM line. -/
theorem C7_pull_parent_decision :
    (∀ (isLoc : String → Bool) (p : String),
        computePullParentImage isLoc p = false
          ↔ (p = DEFAULT_DOCKER_PARENT_IMAGE ∨ isLoc p = true))
    ∧ ∀ (env : BuildEnv) (bp : Option String) (target pipeline : String)
        (cfg : DockerConfiguration) (stack : Stack) (ep : Option String)
        (n : String) (df : List String) (ctx di : Option String)
        (ef : List (String × String)) (pull : Bool),
        BuildEvent.buildZenmlImage n df ctx di ef pull
            ∈ (build_docker_image env bp target pipeline cfg stack ep).1 →
        ∃ par rest, df = ("FROM " ++ par) :: rest
          ∧ pull = computePullParentImage env.isLocalImage par := by
  constructor
  · intro isLoc p
    by_cases hd : p = DEFAULT_DOCKER_PARENT_IMAGE
    · simp [computePullParentImage, hd]
    · simp [computePullParentImage, hd]
  · intro env bp target pipeline cfg stack ep n df ctx di ef pull h
    simp only [build_docker_image] at h
    split at h
    · split at h
      · rcases List.mem_cons.mp h with hfb | hstage
        · exact absurd hfb (by simp)
        · obtain ⟨hn, rf, hg, hdf, hpull⟩ := mem_zenmlBuildStage_buildZenml hstage
          exact ⟨_, _, by rw [hdf]; rfl, hpull⟩
      · simp at h
    · split at h
      · obtain ⟨hn, rf, hg, hdf, hpull⟩ := mem_zenmlBuildStage_buildZenml h
        exact ⟨_, _, by rw [hdf]; rfl, hpull⟩
      · split at h
        · simp at h
        · simp at h

/-- Claim C7 witness: a non-default, locally-resident custom parent is not
pulled, and the synthesized build's FROM line names it. -/
theorem C7_witness :
    ∃ par rest,
      ["FROM custom-img", "WORKDIR /app", "ENV A=b", "RUN chmod -R a+rw ."]
        = ("FROM " ++ par) :: rest
      ∧ false = computePullParentImage envLocalAll.isLocalImage par :=
  C7_pull_parent_decision.2 envLocalAll none "tgt" "pipe" cfgCustomParent {}
    none "tgt"
    ["FROM custom-img", "WORKDIR /app", "ENV A=b", "RUN chmod -R a+rw ."]
    none none [] false
    (by
      have ht : (build_docker_image envLocalAll none "tgt" "pipe"
            cfgCustomParent {} none).1
          = [BuildEvent.buildZenmlImage "tgt"
              ["FROM custom-img", "WORKDIR /app", "ENV A=b",
                "RUN chmod -R a+rw ."] none none [] false] := by decide
      rw [ht]
      exact List.Mem.head _)

/-- Claim C8: `build_and_push_docker_image` raises the no-container-registry
error exactly when the stack has no registry, before any build event;
otherwise it builds under `{registry_uri}/{target_repository}:{pipeline_name}`,
pushes that name, records the digest under the key `docker_image` and
returns it; a failing push (or build) leaves the run record unwritten. -/
theorem C8_build_and_push (env : BuildEnv) (bp : Option String)
    (pipeline : String) (cfg : DockerConfiguration) (stack : Stack)
    (ep : Option String) :
    (stack.container_registry = none →
      build_and_push_docker_image env bp pipeline cfg stack ep
        = ([], [], .error (.noContainerRegistry stack.name)))
    ∧ (∀ reg, stack.container_registry = some reg →
        (∀ events, build_docker_image env bp
              (reg.uri ++ "/" ++ cfg.target_repository ++ ":" ++ pipeline)
              pipeline cfg stack ep = (events, none) →
          (∀ d, env.pushOutcome
                (reg.uri ++ "/" ++ cfg.target_repository ++ ":" ++ pipeline)
              = .ok d →
            build_and_push_docker_image env bp pipeline cfg stack ep
              = (events ++ [.pushImage (reg.uri ++ "/"
                    ++ cfg.target_repository ++ ":" ++ pipeline)],
                  [("docker_image", d)], .ok d))
          ∧ (∀ m, env.pushOutcome
                (reg.uri ++ "/" ++ cfg.target_repository ++ ":" ++ pipeline)
              = .error m →
            build_and_push_docker_image env bp pipeline cfg stack ep
              = (events ++ [.pushImage (reg.uri ++ "/"
                    ++ cfg.target_repository ++ ":" ++ pipeline)],
                  [], .error (.pushFailed m))))
        ∧ (∀ events e, build_docker_image env bp
              (reg.uri ++ "/" ++ cfg.target_repository ++ ":" ++ pipeline)
              pipeline cfg stack ep = (events, some e) →
            build_and_push_docker_image env bp pipeline cfg stack ep
              = (events, [], .error e)))
    ∧ ((build_and_push_docker_image env bp pipeline cfg stack ep).2.2
          = .error (.noContainerRegistry stack.name)
        ↔ stack.container_registry = none) := by
  refine ⟨?_, ?_, ?_⟩
  · intro h
    simp [build_and_push_docker_image, h]
  · intro reg hreg
    refine ⟨fun events hb => ⟨fun d hd => ?_, fun m hm => ?_⟩,
      fun events e hb => ?_⟩ <;>
      simp [build_and_push_docker_image, hreg, hb, *]
  · cases hreg : stack.container_registry with
    | none => simp [build_and_push_docker_image, hreg]
    | some reg =>
      rcases hb : build_docker_image env bp
          (reg.uri ++ "/" ++ cfg.target_repository ++ ":" ++ pipeline)
          pipeline cfg stack ep with ⟨events, oerr⟩
      cases oerr with
      | some e =>
        have herr := build_docker_image_err env bp
          (reg.uri ++ "/" ++ cfg.target_repository ++ ":" ++ pipeline)
          pipeline cfg stack ep
        rw [hb] at herr
        simp only [build_and_push_docker_image, hreg, hb]
        simp at herr ⊢
        rcases herr with h | h | ⟨m, h⟩ <;> subst h <;> simp
      | none =>
        cases hp : env.pushOutcome
            (reg.uri ++ "/" ++ cfg.target_repository ++ ":" ++ pipeline) with
        | ok d => simp [build_and_push_docker_image, hreg, hb, hp]
        | error m => simp [build_and_push_docker_image, hreg, hb, hp]

/-- Claim C8 witness: a default configuration pushed through a stack with
registry `reg.io` is built under `reg.io/zenml:pipe`, pushed, its digest
recorded under `docker_image` and returned. -/
theorem C8_witness :
    build_and_push_docker_image {} none "pipe" {} stackWithRegistry none
      = ([BuildEvent.copyActiveConfiguration "/src/.zenconfig",
          BuildEvent.buildZenmlImage "reg.io/zenml:pipe"
            ["FROM zenmldocker/zenml:0.8.0-py3.8", "WORKDIR /app",
              "ENV ZENML_CONFIG_PATH=/app/.zenconfig", "COPY . .",
              "RUN chmod -R a+rw ."] (some "/src") none [] false,
          BuildEvent.rmtree "/src/.zenconfig"]
          ++ [.pushImage ("reg.io" ++ "/" ++ "zenml" ++ ":" ++ "pipe")],
        [("docker_image", "digest")], .ok "digest") :=
  (((C8_build_and_push {} none "pipe" {} stackWithRegistry none).2.1
      { uri := "reg.io" } rfl).1
    [BuildEvent.copyActiveConfiguration "/src/.zenconfig",
      BuildEvent.buildZenmlImage "reg.io/zenml:pipe"
        ["FROM zenmldocker/zenml:0.8.0-py3.8", "WORKDIR /app",
          "ENV ZENML_CONFIG_PATH=/app/.zenconfig", "COPY . .",
          "RUN chmod -R a+rw ."] (some "/src") none [] false,
      BuildEvent.rmtree "/src/.zenconfig"] (by decide)).1 "digest" rfl

/-- The profile-copy discriminator on the copy event. -/
theorem isProfileCopy_copy (q : String) :
    (BuildEvent.copyActiveConfiguration q).isProfileCopy = true := rfl

/-- The profile-copy discriminator on the removal event. -/
theorem isProfileCopy_rm (q : String) :
    (BuildEvent.rmtree q).isProfileCopy = false := rfl

/-- The removal discriminator on the copy event. -/
theorem isProfileRemove_copy (q : String) :
    (BuildEvent.copyActiveConfiguration q).isProfileRemove = false := rfl

/-- The removal discriminator on the removal event. -/
theorem isProfileRemove_rm (q : String) :
    (BuildEvent.rmtree q).isProfileRemove = true := rfl

/-- A build-call event is neither the profile copy, nor its removal, nor
equal to any `copyActiveConfiguration`. -/
theorem isBuildCall_props {b : BuildEvent} (hb : b.isBuildCall = true) :
    b.isProfileCopy = false ∧ b.isProfileRemove = false
      ∧ ∀ q, b ≠ BuildEvent.copyActiveConfiguration q := by
  cases b <;>
    simp_all [BuildEvent.isBuildCall, BuildEvent.isProfileCopy,
      BuildEvent.isProfileRemove]

/-- The synthesis stage's trace is empty (failed gathering), a lone build
call, or a build call bracketed by the profile copy and its removal. -/
theorem zenmlBuildStage_trace_cases (env : BuildEnv)
    (cfg : DockerConfiguration) (stack : Stack) (p t : String)
    (ep : Option String) :
    (zenmlBuildStage env cfg stack p t ep).1 = []
    ∨ (∃ b : BuildEvent, b.isBuildCall = true
        ∧ (zenmlBuildStage env cfg stack p t ep).1 = [b])
    ∨ (∃ q b, BuildEvent.isBuildCall b = true
        ∧ (zenmlBuildStage env cfg stack p t ep).1
          = [BuildEvent.copyActiveConfiguration q, b, BuildEvent.rmtree q]) := by
  cases hg : gather_requirements_files env cfg stack with
  | error e =>
    left
    unfold zenmlBuildStage
    rw [hg]
  | ok rf =>
    rw [zenmlBuildStage_ok hg]
    cases hcp : cfg.copy_profile
    · exact Or.inr (Or.inl ⟨BuildEvent.buildZenmlImage t
        (generate_zenml_pipeline_dockerfile p cfg (rf.map Prod.fst) ep)
        (if cfg.copy_files then some env.sourceRootPath else none)
        cfg.dockerignore rf (computePullParentImage env.isLocalImage p),
        rfl, by simp [hcp]⟩)
    · exact Or.inr (Or.inr
        ⟨env.sourceRootPath ++ "/" ++ DOCKER_IMAGE_ZENML_CONFIG_DIR,
          BuildEvent.buildZenmlImage t
            (generate_zenml_pipeline_dockerfile p cfg (rf.map Prod.fst) ep)
            (some env.sourceRootPath) cfg.dockerignore rf
            (computePullParentImage env.isLocalImage p),
          rfl, by simp [hcp]⟩)

/-- Cleanup accounting for a trace consisting of a prefix free of
profile-copy bookkeeping followed by a synthesis-stage trace. -/
theorem cleanup_helper (env : BuildEnv) (cfg : DockerConfiguration)
    (stack : Stack) (par t : String) (ep : Option String)
    (pre : List BuildEvent)
    (hpre : ∀ e ∈ pre, e.isProfileCopy = false ∧ e.isProfileRemove = false
      ∧ ∀ q, e ≠ BuildEvent.copyActiveConfiguration q) :
    ((pre ++ (zenmlBuildStage env cfg stack par t ep).1).countP
        BuildEvent.isProfileCopy
      = (pre ++ (zenmlBuildStage env cfg stack par t ep).1).countP
        BuildEvent.isProfileRemove)
    ∧ ∀ p, BuildEvent.copyActiveConfiguration p
          ∈ pre ++ (zenmlBuildStage env cfg stack par t ep).1 →
        ∃ pre' bev,
          pre ++ (zenmlBuildStage env cfg stack par t ep).1
            = pre' ++ [BuildEvent.copyActiveConfiguration p, bev,
              BuildEvent.rmtree p]
          ∧ bev.isBuildCall = true
          ∧ (pre ++ (zenmlBuildStage env cfg stack par t ep).1).countP
              BuildEvent.isProfileRemove = 1 := by
  have hpre0 : ∀ (f : BuildEvent → Bool),
      (∀ e ∈ pre, f e = false) → pre.countP f = 0 := by
    intro f hf
    exact List.countP_eq_zero.mpr (by intro a ha; simp [hf a ha])
  have hcopy0 : pre.countP BuildEvent.isProfileCopy = 0 :=
    hpre0 _ (fun e he => (hpre e he).1)
  have hrem0 : pre.countP BuildEvent.isProfileRemove = 0 :=
    hpre0 _ (fun e he => (hpre e he).2.1)
  rcases zenmlBuildStage_trace_cases env cfg stack par t ep with
    hS | ⟨b, hb, hS⟩ | ⟨q, b, hb, hS⟩ <;> rw [hS]
  · refine ⟨by simp [hcopy0, hrem0], ?_⟩
    intro p hp
    simp only [List.append_nil] at hp
    exact absurd rfl ((hpre _ hp).2.2 p)
  · obtain ⟨hb1, hb2, hb3⟩ := isBuildCall_props hb
    refine ⟨by simp [List.countP_append, List.countP_cons, hcopy0, hrem0,
      hb1, hb2], ?_⟩
    intro p hp
    rcases List.mem_append.mp hp with hp | hp
    · exact absurd rfl ((hpre _ hp).2.2 p)
    · rcases List.mem_cons.mp hp with hp | hp
      · exact absurd hp.symm (hb3 p)
      · exact absurd hp (List.not_mem_nil _)
  · obtain ⟨hb1, hb2, hb3⟩ := isBuildCall_props hb
    refine ⟨by simp [List.countP_append, List.countP_cons, hcopy0, hrem0,
      hb1, hb2, isProfileCopy_copy, isProfileCopy_rm, isProfileRemove_copy,
      isProfileRemove_rm], ?_⟩
    intro p hp
    have hpq : p = q := by
      rcases List.mem_append.mp hp with hp | hp
      · exact absurd rfl ((hpre _ hp).2.2 p)
      · rcases List.mem_cons.mp hp with hp | hp
        · injection hp
        · rcases List.mem_cons.mp hp with hp | hp
          · exact absurd hp.symm (hb3 p)
          · rcases List.mem_cons.mp hp with hp | hp
            · exact absurd hp (by simp)
            · exact absurd hp (List.not_mem_nil _)
    subst hpq
    exact ⟨pre, b, rfl, hb,
      by simp [List.countP_append, List.countP_cons, hrem0, hb2,
        isProfileRemove_copy, isProfileRemove_rm]⟩

/-- Claim C9: in every execution of `build_docker_image` the number of
profile-copy creations equals the number of removals, and whenever the
temporary profile copy is created the trace ends with the copy, the
build attempt and the removal — the removal occurring exactly once,
whether the inner build succeeded or raised (the error, if any, being
propagated after the removal). -/
theorem C9_profile_copy_cleanup (env : BuildEnv) (bp : Option String)
    (target pipeline : String) (cfg : DockerConfiguration) (stack : Stack)
    (ep : Option String) :
    ((build_docker_image env bp target pipeline cfg stack ep).1.countP
        BuildEvent.isProfileCopy
      = (build_docker_image env bp target pipeline cfg stack ep).1.countP
        BuildEvent.isProfileRemove)
    ∧ ∀ p, BuildEvent.copyActiveConfiguration p
          ∈ (build_docker_image env bp target pipeline cfg stack ep).1 →
        ∃ pre bev,
          (build_docker_image env bp target pipeline cfg stack ep).1
            = pre ++ [BuildEvent.copyActiveConfiguration p, bev,
              BuildEvent.rmtree p]
          ∧ bev.isBuildCall = true
          ∧ ((build_docker_image env bp target pipeline cfg stack ep).1.countP
              BuildEvent.isProfileRemove) = 1 := by
  simp only [build_docker_image]
  split
  · split
    · have h := cleanup_helper env cfg stack
        ("zenml-intermediate-build:" ++ pipeline) target ep
        [BuildEvent.buildCustomImage ("zenml-intermediate-build:" ++ pipeline)
          (cfg.dockerfile.getD "") cfg.build_context_root cfg.build_options]
        (by intro e he; simp at he; subst he;
            exact ⟨rfl, rfl, fun q => by simp⟩)
      simpa using h
    · refine ⟨by simp [BuildEvent.isProfileCopy, BuildEvent.isProfileRemove],
        ?_⟩
      intro p hp
      simp at hp
  · split
    · have h := cleanup_helper env cfg stack
        (py_str_or cfg.parent_image
          (py_str_or bp DEFAULT_DOCKER_PARENT_IMAGE)) target ep [] (by simp)
      simpa using h
    · split
      · exact ⟨by simp, fun p hp => by simp at hp⟩
      · refine ⟨by simp [BuildEvent.isProfileCopy,
          BuildEvent.isProfileRemove], ?_⟩
        intro p hp
        simp at hp

/-- Claim C9 witness: with a failing inner build and a default
configuration, the trace still ends with copy, build attempt, removal,
the removal occurring exactly once. -/
theorem C9_witness :
    ∃ pre bev,
      (build_docker_image envFail none "tgt" "pipe" {} {} none).1
        = pre ++ [BuildEvent.copyActiveConfiguration "/src/.zenconfig", bev,
          BuildEvent.rmtree "/src/.zenconfig"]
      ∧ bev.isBuildCall = true
      ∧ ((build_docker_image envFail none "tgt" "pipe" {} {} none).1.countP
          BuildEvent.isProfileRemove) = 1 :=
  (C9_profile_copy_cleanup envFail none "tgt" "pipe" {} {} none).2
    "/src/.zenconfig"
    (by
      have ht : (build_docker_image envFail none "tgt" "pipe" {} {} none).1
          = [BuildEvent.copyActiveConfiguration "/src/.zenconfig",
            BuildEvent.buildZenmlImage "tgt"
              ["FROM zenmldocker/zenml:0.8.0-py3.8", "WORKDIR /app",
                "ENV ZENML_CONFIG_PATH=/app/.zenconfig", "COPY . .",
                "RUN chmod -R a+rw ."] (some "/src") none [] false,
            BuildEvent.rmtree "/src/.zenconfig"] := by decide
      rw [ht]
      exact List.Mem.head _)

/-- Applying a keyword whose name is outside the enumerated field set is a
validation error, whatever the partially built configuration. -/
theorem applyField_unknown (cfg : DockerConfiguration) (name : String)
    (v : FieldValue) (h : name ∉ dockerConfigurationFieldNames) :
    applyField cfg (name, v) = .error name := by
  simp only [dockerConfigurationFieldNames, List.mem_cons,
    List.not_mem_nil, or_false, not_or] at h
  obtain ⟨h1, h2, h3, h4, h5, h6, h7, h8, h9, h10, h11, h12, h13⟩ := h
  simp [applyField, h1, h2, h3, h4, h5, h6, h7, h8, h9, h10, h11, h12, h13]

/-- A keyword list containing an unknown field name always fails to
validate, whatever the starting configuration. -/
theorem constructGo_unknown (kwargs : List (String × FieldValue)) :
    ∀ (cfg : DockerConfiguration) (name : String) (v : FieldValue),
      (name, v) ∈ kwargs → name ∉ dockerConfigurationFieldNames →
      ∃ e, constructGo cfg kwargs = .error e := by
  induction kwargs with
  | nil =>
    intro cfg name v h _
    exact absurd h (List.not_mem_nil _)
  | cons kv rest ih =>
    intro cfg name v h hn
    rcases List.mem_cons.mp h with he | hr
    · subst he
      exact ⟨name, by simp [constructGo, applyField_unknown cfg name v hn]⟩
    · cases ha : applyField cfg kv with
      | error e => exact ⟨e, by simp [constructGo, ha]⟩
      | ok cfg' =>
        obtain ⟨e, hee⟩ := ih cfg' name v hr hn
        exact ⟨e, by simp [constructGo, ha, hee]⟩

/-- Claim C10: `DockerConfiguration` is a closed-schema immutable value
object: construction with any field name outside the enumerated set is an
error, and construction with no arguments yields exactly the documented
defaults.  (Mutation is unrepresentable in this embedding — every
operation takes the configuration as a pure value, matching pydantic's
`allow_mutation = False`.) -/
theorem C10_closed_schema :
    (∀ (kwargs : List (String × FieldValue)) (name : String)
        (v : FieldValue), (name, v) ∈ kwargs →
        name ∉ dockerConfigurationFieldNames →
        ∃ e, constructDockerConfiguration kwargs = .error e)
    ∧ constructDockerConfiguration [] = .ok
        { parent_image := none, dockerfile := none,
          build_context_root := none, build_options := [],
          target_repository := "zenml",
          replicate_local_python_environment := none, requirements := none,
          required_integrations := [], install_stack_requirements := true,
          environment := [], dockerignore := none, copy_files := true,
          copy_profile := true } :=
  ⟨fun kwargs name v h hn => constructGo_unknown kwargs {} name v h hn, rfl⟩

/-- Claim C10 witness: constructing with the unknown field
`copy_fils` (a typo of `copy_files`) is rejected. -/
theorem C10_witness :
    ∃ e, constructDockerConfiguration [("copy_fils", FieldValue.bool true)]
      = .error e :=
  C10_closed_schema.1 [("copy_fils", FieldValue.bool true)] "copy_fils"
    (FieldValue.bool true) (List.mem_singleton.mpr rfl) (by decide)

/-- Claim C2 witness: the statement evaluated at a concrete default
configuration. -/
theorem C2_witness :
    (build_docker_image {} none "tgt" "pipe" {} {} none).2
        ≠ some BuildError.insufficientConfiguration
    ∧ ∃ df ctx di ef pull,
        BuildEvent.buildZenmlImage "tgt" df ctx di ef pull
          ∈ (build_docker_image {} none "tgt" "pipe" {} {} none).1 :=
  C2_default_config_always_synthesizes {} none "tgt" "pipe" {} none
